import Mathlib

/-!
Verification of the playback coordination core of the repository: the inline
audio player component (components/InlineAudioPlayer.tsx) and its second
variant (the player found in the unnamed source part), shallowly embedded in
Lean.  Host-language numbers are modelled as rationals together with an
explicit NaN marker where the source tests isNaN; object URLs are modelled as
natural-number handles handed out by a counter.
-/

namespace Player

/-- A host-language number as far as formatTime observes it: either NaN or a
rational value. -/
inductive JSNum where
  | nan : JSNum
  | val (q : ℚ) : JSNum

/-- Truncation toward zero, the rounding used by the host remainder
operator. -/
def jsTrunc (q : ℚ) : ℤ :=
  if 0 ≤ q then ⌊q⌋ else -⌊-q⌋

/-- The host remainder `a % b`: `a - b * trunc (a / b)`. -/
def jsRem (a b : ℚ) : ℚ :=
  a - b * (jsTrunc (a / b) : ℚ)

/-- `padStart(2, zero)` from the source: left-pad a decimal string to at
least two characters. -/
def padStart2 (s : String) : String :=
  if s.length < 2 then String.mk (List.replicate (2 - s.length) '0') ++ s else s

/-- formatTime from components/InlineAudioPlayer.tsx lines 11-18: NaN and
negative inputs are replaced by zero, then minutes are the floor of
seconds / 60 and the seconds digit pair is the floor of seconds % 60, both
zero-padded and joined by a colon. -/
def formatTime (n : JSNum) : String :=
  let seconds : ℚ :=
    match n with
    | .nan => 0
    | .val q => if q < 0 then 0 else q
  padStart2 (toString ⌊seconds / 60⌋) ++ ":" ++ padStart2 (toString ⌊jsRem seconds 60⌋)

/-- formatTime as it appears verbatim in the second player variant
(unnamed source part, lines 77-84); the text coincides with the first
variant. -/
def formatTimeSecondVariant (n : JSNum) : String :=
  let seconds : ℚ :=
    match n with
    | .nan => 0
    | .val q => if q < 0 then 0 else q
  padStart2 (toString ⌊seconds / 60⌋) ++ ":" ++ padStart2 (toString ⌊jsRem seconds 60⌋)

/-- The output format claimed by the spec, written from the spec words: NaN
and negative inputs give the zero display, and otherwise the result is
floor(s / 60) and floor(s mod 60) (with the mathematical remainder
s - 60 * floor(s / 60)), each zero-padded to at least two digits and joined
by a colon. -/
def formatTimeSpec (n : JSNum) : String :=
  match n with
  | .nan => "00:00"
  | .val q =>
      if q < 0 then "00:00"
      else padStart2 (toString ⌊q / 60⌋) ++ ":" ++ padStart2 (toString ⌊q - 60 * (⌊q / 60⌋ : ℚ)⌋)

/-- One player widget, mirroring the component state: the isPlaying flag,
the reported currentTime, the cached blob URL (objectUrl), and whether the
component is still mounted. -/
structure Widget where
  isPlaying : Bool := false
  currentTime : ℚ := 0
  objectUrl : Option Nat := none
  mounted : Bool := true

/-- handleSeek (components/InlineAudioPlayer.tsx lines 119-125, and
identically in the second variant): the requested value is assigned to
currentTime verbatim; no clamping is performed by the handler and the
playing flag is untouched. -/
def handleSeek (t : ℚ) (st : Widget) : Widget :=
  { st with currentTime := t }

lemma jsTrunc_nonneg {q : ℚ} (h : 0 ≤ q) : jsTrunc q = ⌊q⌋ := by
  simp [jsTrunc, h]

lemma jsRem_sixty_of_nonneg {q : ℚ} (h : 0 ≤ q) :
    jsRem q 60 = q - 60 * (⌊q / 60⌋ : ℚ) := by
  have h60 : (0 : ℚ) ≤ q / 60 := by positivity
  simp [jsRem, jsTrunc_nonneg h60]

/-- The global system: one widget per file id (widget `w` renders file id
`w`), the zustand store `playingFileId` shared by all widgets, the fresh
object-URL counter with the lists of URLs created and revoked so far, the
authenticated fetches and the play() promises currently in flight (a play
entry carries the freshly created URL when it came from the fetch branch,
and `none` when it came from the cache-hit branch), a per-widget fetch
counter, and a log of every audio.play() call paired with whether the
owning component was still mounted at call time. -/
structure Sys where
  widgets : Nat → Widget
  playingFileId : Option Nat := none
  nextUrl : Nat := 0
  createdUrls : List Nat := []
  revokedUrls : List Nat := []
  pendingFetch : List Nat := []
  pendingPlay : List (Nat × Option Nat) := []
  fetchCount : Nat → Nat := fun _ => 0
  playLog : List (Nat × Bool) := []

/-- The initial system: every widget freshly mounted, nothing playing. -/
def init : Sys := { widgets := fun _ => {} }

/-- Replace the state of one widget. -/
def setW (s : Sys) (w : Nat) (st : Widget) : Sys :=
  { s with widgets := fun v => if v = w then st else s.widgets v }

/-- Remove the first occurrence of `w`; `none` when absent. -/
def removeFirst (w : Nat) : List Nat → Option (List Nat)
  | [] => none
  | v :: rest =>
      if v = w then some rest
      else Option.map (fun l => v :: l) (removeFirst w rest)

/-- Pop the first pending play() promise belonging to widget `w`, returning
its mode and the remaining queue. -/
def popPlay (w : Nat) :
    List (Nat × Option Nat) → Option (Option Nat × List (Nat × Option Nat))
  | [] => none
  | p :: rest =>
      if p.1 = w then some (p.2, rest)
      else Option.map (fun q => (q.1, p :: q.2)) (popPlay w rest)

/-- handlePlayPause (lines 96-110).  While playing: pause, clear the flag,
and clear the store only when this widget is the holder.  Otherwise: set the
store to this file id and enter loadAndPlayAudio (lines 52-94), which runs
synchronously up to its first suspension — a cache hit calls audio.play()
at once (lines 57-67), a cache miss issues the authenticated fetch
(line 71). -/
def handlePlayPause (s : Sys) (w : Nat) : Sys :=
  if (s.widgets w).mounted = false then s
  else if (s.widgets w).isPlaying then
    let s1 := setW s w { s.widgets w with isPlaying := false }
    { s1 with
        playingFileId := if s.playingFileId = some w then none else s.playingFileId }
  else
    let s1 := { s with playingFileId := some w }
    match (s.widgets w).objectUrl with
    | some _ =>
        { s1 with
            playLog := s1.playLog ++ [(w, true)],
            pendingPlay := s1.pendingPlay ++ [(w, none)] }
    | none =>
        { s1 with
            pendingFetch := s1.pendingFetch ++ [w],
            fetchCount := fun v => if v = w then s1.fetchCount v + 1 else s1.fetchCount v }

/-- Resolution of the authenticated fetch (loadAndPlayAudio lines 71-88): a
fresh object URL is created; setObjectUrl installs it when the component is
still mounted, in which case the cleanup of the effect on lines 28-34
revokes the previously cached URL, if any; then audio.src is assigned and
audio.play() is called on the element captured at call time.  No epoch or
staleness check appears in the source, and playingFileId is not read or
written on this path. -/
def fetchResolve (s : Sys) (w : Nat) : Sys :=
  match removeFirst w s.pendingFetch with
  | none => s
  | some rest =>
      let u := s.nextUrl
      let st := s.widgets w
      let s1 := { s with
        nextUrl := u + 1,
        createdUrls := s.createdUrls ++ [u],
        pendingFetch := rest }
      let s2 :=
        if st.mounted then
          let s1a :=
            match st.objectUrl with
            | some old => { s1 with revokedUrls := s1.revokedUrls ++ [old] }
            | none => s1
          setW s1a w { st with objectUrl := some u }
        else s1
      { s2 with
          playLog := s2.playLog ++ [(w, st.mounted)],
          pendingPlay := s2.pendingPlay ++ [(w, some u)] }

/-- Rejection of the authenticated fetch (catch block, lines 89-93):
setIsPlaying(false) is ignored once the component is unmounted, while
setPlayingFileId(null) reaches the global store unconditionally — the
source does not compare the store against this widget before clearing
it. -/
def fetchReject (s : Sys) (w : Nat) : Sys :=
  match removeFirst w s.pendingFetch with
  | none => s
  | some rest =>
      let st := s.widgets w
      let s1 := { s with pendingFetch := rest, playingFileId := none }
      if st.mounted then setW s1 w { st with isPlaying := false } else s1

/-- Resolution of a play() promise (lines 60 and 79-80): setIsPlaying(true),
ignored once unmounted. -/
def playResolve (s : Sys) (w : Nat) : Sys :=
  match popPlay w s.pendingPlay with
  | none => s
  | some (_, rest) =>
      let st := s.widgets w
      let s1 := { s with pendingPlay := rest }
      if st.mounted then setW s1 w { st with isPlaying := true } else s1

/-- Rejection of a play() promise.  The cache-hit branch (lines 60-64) only
clears the local flag and the store; the fresh-fetch branch (lines 81-87)
additionally revokes the just-created URL and clears the cache via
setObjectUrl(null), whose effect cleanup also revokes the previously cached
URL.  Both branches clear the store unconditionally. -/
def playReject (s : Sys) (w : Nat) : Sys :=
  match popPlay w s.pendingPlay with
  | none => s
  | some (mode, rest) =>
      let st := s.widgets w
      let s1 := { s with pendingPlay := rest, playingFileId := none }
      match mode with
      | none => if st.mounted then setW s1 w { st with isPlaying := false } else s1
      | some u =>
          let s2 := { s1 with revokedUrls := s1.revokedUrls ++ [u] }
          if st.mounted then
            let s3 :=
              match st.objectUrl with
              | some old => { s2 with revokedUrls := s2.revokedUrls ++ [old] }
              | none => s2
            setW s3 w { st with isPlaying := false, objectUrl := none }
          else s2

/-- handleAudioEnded (lines 127-132): clear the flag; clear the store only
when this widget is the holder. -/
def handleAudioEnded (s : Sys) (w : Nat) : Sys :=
  if (s.widgets w).mounted then
    let s1 := setW s w { s.widgets w with isPlaying := false }
    { s1 with
        playingFileId := if s.playingFileId = some w then none else s.playingFileId }
  else s

/-- handleTimeUpdate (lines 113-117): copy the media clock (a nonnegative
time) into currentTime. -/
def handleTimeUpdate (s : Sys) (w : Nat) (t : ℚ) : Sys :=
  if (s.widgets w).mounted = true ∧ 0 ≤ t then
    setW s w { s.widgets w with currentTime := t }
  else s

/-- Teardown (the unmount cleanup of the effect on lines 28-34): the cached
object URL, if any, is revoked; nothing else happens — in particular the
store is not touched and any in-flight fetch keeps running. -/
def unmountWidget (s : Sys) (w : Nat) : Sys :=
  if (s.widgets w).mounted then
    let st := s.widgets w
    let s1 :=
      match st.objectUrl with
      | some u => { s with revokedUrls := s.revokedUrls ++ [u] }
      | none => s
    setW s1 w { st with mounted := false }
  else s

/-- The sync-with-global-state effect (lines 37-42): a widget that is
playing while the store names another file pauses itself. -/
def syncStopEffect (hold : Option Nat) (w : Nat) (st : Widget) : Widget :=
  if hold ≠ some w ∧ st.isPlaying then { st with isPlaying := false } else st

/-- The reset-time effect (lines 45-50): a stopped widget with a positive
currentTime resets it to zero. -/
def resetTimeEffect (st : Widget) : Widget :=
  if st.isPlaying = false ∧ 0 < st.currentTime then { st with currentTime := 0 } else st

/-- One React effect flush: every still-mounted widget runs its
sync-with-global-state effect and then its reset-time effect. -/
def flushEffects (s : Sys) : Sys :=
  { s with widgets := fun w =>
      if (s.widgets w).mounted then
        resetTimeEffect (syncStopEffect s.playingFileId w (s.widgets w))
      else s.widgets w }

/-- The observable events of the system: a click on the play/pause button,
resolution or rejection of an in-flight fetch or play() promise, the media
ended and timeupdate events, component teardown, and a React effect
flush. -/
inductive Event where
  | click (w : Nat) : Event
  | fetchOk (w : Nat) : Event
  | fetchErr (w : Nat) : Event
  | playOk (w : Nat) : Event
  | playErr (w : Nat) : Event
  | ended (w : Nat) : Event
  | timeUpdate (w : Nat) (t : ℚ) : Event
  | unmount (w : Nat) : Event
  | flush : Event

/-- Deterministic semantics of one event. -/
def step (s : Sys) : Event → Sys
  | .click w => handlePlayPause s w
  | .fetchOk w => fetchResolve s w
  | .fetchErr w => fetchReject s w
  | .playOk w => playResolve s w
  | .playErr w => playReject s w
  | .ended w => handleAudioEnded s w
  | .timeUpdate w t => handleTimeUpdate s w t
  | .unmount w => unmountWidget s w
  | .flush => flushEffects s

/-- Run a trace of events. -/
def run (s : Sys) (tr : List Event) : Sys := tr.foldl step s

lemma setW_widgets (s : Sys) (w : Nat) (st : Widget) (v : Nat) :
    ((setW s w st).widgets v) = if v = w then st else s.widgets v := rfl

lemma isPlaying_resetTimeEffect (st : Widget) :
    (resetTimeEffect st).isPlaying = st.isPlaying := by
  unfold resetTimeEffect; split <;> rfl

lemma currentTime_syncStopEffect (hold : Option Nat) (w : Nat) (st : Widget) :
    (syncStopEffect hold w st).currentTime = st.currentTime := by
  unfold syncStopEffect; split <;> rfl

lemma syncStop_playing {hold : Option Nat} {w : Nat} {st : Widget}
    (h : (syncStopEffect hold w st).isPlaying = true) : hold = some w := by
  unfold syncStopEffect at h
  split at h
  · simp at h
  · rename_i hc
    by_contra hne
    exact hc ⟨hne, h⟩

lemma syncStop_not_holder {hold : Option Nat} {w : Nat} (st : Widget)
    (h : hold ≠ some w) : (syncStopEffect hold w st).isPlaying = false := by
  unfold syncStopEffect
  split
  · rfl
  · rename_i hc
    by_contra hp
    exact hc ⟨h, by simpa using hp⟩

lemma syncStop_of_not_playing {hold : Option Nat} {w : Nat} {st : Widget}
    (h : st.isPlaying = false) : syncStopEffect hold w st = st := by
  unfold syncStopEffect; simp [h]

lemma resetTime_of_not_playing {st : Widget} (h0 : 0 ≤ st.currentTime)
    (hp : st.isPlaying = false) : (resetTimeEffect st).currentTime = 0 := by
  unfold resetTimeEffect
  by_cases h : 0 < st.currentTime
  · simp [hp, h]
  · have hz : st.currentTime = 0 := le_antisymm (not_lt.1 h) h0
    simp [hp, h, hz]

lemma flush_not_holder {s : Sys} {w : Nat} (h : s.playingFileId ≠ some w)
    (hm : (s.widgets w).mounted = true) :
    ((flushEffects s).widgets w).isPlaying = false := by
  simp only [flushEffects, hm, if_true]
  rw [isPlaying_resetTimeEffect]
  exact syncStop_not_holder _ h

lemma playingFileId_flushEffects (s : Sys) :
    (flushEffects s).playingFileId = s.playingFileId := rfl

lemma mounted_flushEffects (s : Sys) (v : Nat) :
    ((flushEffects s).widgets v).mounted = (s.widgets v).mounted := by
  simp only [flushEffects]
  split
  · unfold resetTimeEffect syncStopEffect
    split <;> split <;> rfl
  · rfl

lemma playingFileId_fetchResolve (s : Sys) (w : Nat) :
    (fetchResolve s w).playingFileId = s.playingFileId := by
  unfold fetchResolve
  cases removeFirst w s.pendingFetch with
  | none => rfl
  | some rest =>
      cases hm : (s.widgets w).mounted with
      | false => simp [hm]
      | true => cases hobj : (s.widgets w).objectUrl <;> simp [hm, hobj, setW]

lemma playingFileId_playResolve (s : Sys) (w : Nat) :
    (playResolve s w).playingFileId = s.playingFileId := by
  unfold playResolve
  cases popPlay w s.pendingPlay with
  | none => rfl
  | some p =>
      cases hm : (s.widgets w).mounted with
      | false => simp [hm]
      | true => simp [hm, setW]

lemma mounted_fetchResolve (s : Sys) (w v : Nat) :
    ((fetchResolve s w).widgets v).mounted = (s.widgets v).mounted := by
  unfold fetchResolve
  cases removeFirst w s.pendingFetch with
  | none => rfl
  | some rest =>
      cases hm : (s.widgets w).mounted with
      | false => simp [hm]
      | true =>
          cases hobj : (s.widgets w).objectUrl <;>
            · simp only [hm, hobj, if_true, setW]
              by_cases hv : v = w <;> simp [hv, hm]

lemma mounted_playResolve (s : Sys) (w v : Nat) :
    ((playResolve s w).widgets v).mounted = (s.widgets v).mounted := by
  unfold playResolve
  cases popPlay w s.pendingPlay with
  | none => rfl
  | some p =>
      cases hm : (s.widgets w).mounted with
      | false => simp [hm]
      | true =>
          simp only [hm, if_true, setW]
          by_cases hv : v = w <;> simp [hv, hm]

lemma time_setW_keep (s : Sys) (w v : Nat) (st : Widget)
    (hst : st.currentTime = (s.widgets w).currentTime) :
    ((setW s w st).widgets v).currentTime = (s.widgets v).currentTime := by
  simp only [setW]
  by_cases hv : v = w
  · subst hv; simp [hst]
  · simp [hv]

lemma time_handlePlayPause (s : Sys) (w v : Nat) :
    ((handlePlayPause s w).widgets v).currentTime = (s.widgets v).currentTime := by
  unfold handlePlayPause
  by_cases h1 : (s.widgets w).mounted = false
  · simp [h1]
  · by_cases h2 : (s.widgets w).isPlaying
    · rw [if_neg h1, if_pos h2]
      exact time_setW_keep s w v _ rfl
    · cases hobj : (s.widgets w).objectUrl <;> simp [h1, h2, hobj]

lemma time_fetchResolve (s : Sys) (w v : Nat) :
    ((fetchResolve s w).widgets v).currentTime = (s.widgets v).currentTime := by
  unfold fetchResolve
  cases removeFirst w s.pendingFetch with
  | none => rfl
  | some rest =>
      cases hm : (s.widgets w).mounted with
      | false => simp [hm]
      | true =>
          cases hobj : (s.widgets w).objectUrl <;>
            · simp only [hm, hobj, if_true, setW]
              by_cases hv : v = w <;> simp [hv]

lemma time_fetchReject (s : Sys) (w v : Nat) :
    ((fetchReject s w).widgets v).currentTime = (s.widgets v).currentTime := by
  unfold fetchReject
  cases removeFirst w s.pendingFetch with
  | none => rfl
  | some rest =>
      cases hm : (s.widgets w).mounted with
      | false => simp [hm]
      | true =>
          simp only [hm, if_true, setW]
          by_cases hv : v = w <;> simp [hv]

lemma time_playResolve (s : Sys) (w v : Nat) :
    ((playResolve s w).widgets v).currentTime = (s.widgets v).currentTime := by
  unfold playResolve
  cases popPlay w s.pendingPlay with
  | none => rfl
  | some p =>
      cases hm : (s.widgets w).mounted with
      | false => simp [hm]
      | true =>
          simp only [hm, if_true, setW]
          by_cases hv : v = w <;> simp [hv]

lemma time_playReject (s : Sys) (w v : Nat) :
    ((playReject s w).widgets v).currentTime = (s.widgets v).currentTime := by
  unfold playReject
  cases popPlay w s.pendingPlay with
  | none => rfl
  | some p =>
      obtain ⟨mode, rest⟩ := p
      cases mode with
      | none =>
          cases hm : (s.widgets w).mounted with
          | false => simp [hm]
          | true =>
              simp only [hm, if_true, setW]
              by_cases hv : v = w <;> simp [hv]
      | some u =>
          cases hm : (s.widgets w).mounted with
          | false => simp [hm]
          | true =>
              cases hobj : (s.widgets w).objectUrl <;>
                · simp only [hm, hobj, if_true, setW]
                  by_cases hv : v = w <;> simp [hv]

lemma time_handleAudioEnded (s : Sys) (w v : Nat) :
    ((handleAudioEnded s w).widgets v).currentTime = (s.widgets v).currentTime := by
  unfold handleAudioEnded
  split
  · exact time_setW_keep s w v _ rfl
  · rfl

lemma time_unmountWidget (s : Sys) (w v : Nat) :
    ((unmountWidget s w).widgets v).currentTime = (s.widgets v).currentTime := by
  unfold unmountWidget
  split
  · cases hobj : (s.widgets w).objectUrl <;>
      · simp only [hobj, setW]
        by_cases hv : v = w <;> simp [hv]
  · rfl

lemma time_nonneg_handleTimeUpdate (s : Sys) (w : Nat) (t : ℚ) (v : Nat)
    (h : 0 ≤ (s.widgets v).currentTime) :
    0 ≤ ((handleTimeUpdate s w t).widgets v).currentTime := by
  unfold handleTimeUpdate
  split_ifs with hc
  · simp only [setW]
    by_cases hv : v = w
    · subst hv; simpa using hc.2
    · simpa [hv] using h
  · exact h

lemma time_nonneg_flushEffects (s : Sys) (v : Nat)
    (h : 0 ≤ (s.widgets v).currentTime) :
    0 ≤ ((flushEffects s).widgets v).currentTime := by
  simp only [flushEffects]
  split
  · unfold resetTimeEffect
    split
    · simp
    · simpa [currentTime_syncStopEffect] using h
  · exact h

lemma time_nonneg_step (s : Sys) (e : Event)
    (h : ∀ v, 0 ≤ (s.widgets v).currentTime) (v : Nat) :
    0 ≤ ((step s e).widgets v).currentTime := by
  cases e with
  | click w => rw [step, time_handlePlayPause]; exact h v
  | fetchOk w => rw [step, time_fetchResolve]; exact h v
  | fetchErr w => rw [step, time_fetchReject]; exact h v
  | playOk w => rw [step, time_playResolve]; exact h v
  | playErr w => rw [step, time_playReject]; exact h v
  | ended w => rw [step, time_handleAudioEnded]; exact h v
  | timeUpdate w t => exact time_nonneg_handleTimeUpdate s w t v (h v)
  | unmount w => rw [step, time_unmountWidget]; exact h v
  | flush => exact time_nonneg_flushEffects s v (h v)

lemma time_nonneg_run (tr : List Event) (s : Sys)
    (h : ∀ v, 0 ≤ (s.widgets v).currentTime) (v : Nat) :
    0 ≤ ((run s tr).widgets v).currentTime := by
  induction tr generalizing s with
  | nil => exact h v
  | cons e rest ih => exact ih (step s e) (fun u => time_nonneg_step s e h u)

lemma time_nonneg_reachable (tr : List Event) (v : Nat) :
    0 ≤ ((run init tr).widgets v).currentTime :=
  time_nonneg_run tr init (fun _ => le_refl 0) v

/-- Claim C1, counterexample.  Mutual exclusion does not hold at every
observed instant: widget 1 plays, pauses (leaving its URL cached), widget 0
then plays; a further click on widget 1 issues audio.play() for widget 1
synchronously (a pending play promise exists) while widget 0 still has
isPlaying = true — so the new widget is not preceded by a stop of the old
one — and once that promise resolves, before the next effect flush, both
mounted widgets have isPlaying = true at once. -/
theorem C1_two_playing_counterexample :
    (((run init [.click 1, .flush, .fetchOk 1, .flush, .playOk 1, .flush, .click 1, .flush,
        .click 0, .flush, .fetchOk 0, .flush, .playOk 0, .flush, .click 1]).widgets 0).isPlaying
      = true) ∧
    ((run init [.click 1, .flush, .fetchOk 1, .flush, .playOk 1, .flush, .click 1, .flush,
        .click 0, .flush, .fetchOk 0, .flush, .playOk 0, .flush, .click 1]).pendingPlay
      = [(1, none)]) ∧
    (((run init [.click 1, .flush, .fetchOk 1, .flush, .playOk 1, .flush, .click 1, .flush,
        .click 0, .flush, .fetchOk 0, .flush, .playOk 0, .flush, .click 1, .playOk 1]).widgets 0).isPlaying
      = true) ∧
    (((run init [.click 1, .flush, .fetchOk 1, .flush, .playOk 1, .flush, .click 1, .flush,
        .click 0, .flush, .fetchOk 0, .flush, .playOk 0, .flush, .click 1, .playOk 1]).widgets 1).isPlaying
      = true) ∧
    (((run init [.click 1, .flush, .fetchOk 1, .flush, .playOk 1, .flush, .click 1, .flush,
        .click 0, .flush, .fetchOk 0, .flush, .playOk 0, .flush, .click 1, .playOk 1]).widgets 0).mounted
      = true) ∧
    (((run init [.click 1, .flush, .fetchOk 1, .flush, .playOk 1, .flush, .click 1, .flush,
        .click 0, .flush, .fetchOk 0, .flush, .playOk 0, .flush, .click 1, .playOk 1]).widgets 1).mounted
      = true) := by
  decide

/-- Claim C1, amended.  Mutual exclusion holds at effect-quiescent instants:
after the sync-with-global-state effects of the mounted widgets have run, a
widget that is still playing must be the store holder, so at most one
mounted widget has isPlaying = true; a preempted widget is stopped by that
effect only after the new widget has already issued its play call. -/
theorem C1_mutual_exclusion_after_flush (s : Sys) (w v : Nat)
    (hmw : (s.widgets w).mounted = true) (hmv : (s.widgets v).mounted = true)
    (hw : ((flushEffects s).widgets w).isPlaying = true)
    (hv : ((flushEffects s).widgets v).isPlaying = true) : w = v := by
  have hw2 : (syncStopEffect s.playingFileId w (s.widgets w)).isPlaying = true := by
    have := hw
    simp only [flushEffects, hmw, if_true, isPlaying_resetTimeEffect] at this
    exact this
  have hv2 : (syncStopEffect s.playingFileId v (s.widgets v)).isPlaying = true := by
    have := hv
    simp only [flushEffects, hmv, if_true, isPlaying_resetTimeEffect] at this
    exact this
  have h1 : s.playingFileId = some w := syncStop_playing hw2
  have h2 : s.playingFileId = some v := syncStop_playing hv2
  exact Option.some.inj (h1 ▸ h2)

/-- Claim C1, witness for the amended theorem. -/
theorem C1_mutual_exclusion_witness :
    ((({ widgets := fun v => if v = 1 then { isPlaying := true } else {}, playingFileId := some 1 } : Sys).widgets 1).mounted = true) ∧ (1 : Nat) = 1 :=
  ⟨by decide,
    C1_mutual_exclusion_after_flush
      { widgets := fun v => if v = 1 then { isPlaying := true } else {}, playingFileId := some 1 }
      1 1 (by decide) (by decide) (by decide) (by decide)⟩

/-- Claim C2, counterexample.  Widget 0 starts a fetch, widget 1 (with a
cached URL from an earlier play) takes the slot meanwhile and plays; when
the fetch of widget 0 resolves, the source performs no epoch check: the
fetched resource is installed in the cache of widget 0 (not revoked — the
revoked list is empty), audio.play() is called for widget 0 while it is not
the holder, and after the promise resolves widget 0 has isPlaying = true.
Only the final conjunct of the original claim survives: the store still
names widget 1. -/
theorem C2_stale_fetch_counterexample :
    ((run init [.click 1, .flush, .fetchOk 1, .flush, .playOk 1, .flush, .click 1, .flush,
        .click 0, .flush, .click 1, .playOk 1, .flush, .fetchOk 0, .playOk 0]).playingFileId
      = some 1) ∧
    (((run init [.click 1, .flush, .fetchOk 1, .flush, .playOk 1, .flush, .click 1, .flush,
        .click 0, .flush, .click 1, .playOk 1, .flush, .fetchOk 0, .playOk 0]).widgets 0).isPlaying
      = true) ∧
    (((run init [.click 1, .flush, .fetchOk 1, .flush, .playOk 1, .flush, .click 1, .flush,
        .click 0, .flush, .click 1, .playOk 1, .flush, .fetchOk 0, .playOk 0]).widgets 0).objectUrl
      = some 1) ∧
    ((run init [.click 1, .flush, .fetchOk 1, .flush, .playOk 1, .flush, .click 1, .flush,
        .click 0, .flush, .click 1, .playOk 1, .flush, .fetchOk 0, .playOk 0]).revokedUrls
      = []) ∧
    ((0, true) ∈ (run init [.click 1, .flush, .fetchOk 1, .flush, .playOk 1, .flush, .click 1, .flush,
        .click 0, .flush, .click 1, .playOk 1, .flush, .fetchOk 0, .playOk 0]).playLog) := by
  decide

/-- Claim C2, amended.  A fetch result that arrives after another widget has
taken the slot leaves the store holder unchanged (fetch resolution never
writes playingFileId), but the resource is installed and played with no
staleness check; the stale widget is stopped again only by the subsequent
sync-with-global-state effect flush. -/
theorem C2_stale_fetch_amended (s : Sys) (w v : Nat)
    (hm : (s.widgets w).mounted = true)
    (hh : s.playingFileId = some v) (hne : v ≠ w) :
    ((step (step s (.fetchOk w)) (.playOk w)).playingFileId = some v) ∧
    (((flushEffects (step (step s (.fetchOk w)) (.playOk w))).widgets w).isPlaying = false) := by
  have hpf : (step (step s (.fetchOk w)) (.playOk w)).playingFileId = some v := by
    rw [step, step, playingFileId_playResolve, playingFileId_fetchResolve, hh]
  refine ⟨hpf, ?_⟩
  have hm2 : ((step (step s (.fetchOk w)) (.playOk w)).widgets w).mounted = true := by
    rw [step, step, mounted_playResolve, mounted_fetchResolve]
    exact hm
  have hne2 : (step (step s (.fetchOk w)) (.playOk w)).playingFileId ≠ some w := by
    rw [hpf]
    intro hcon
    exact hne (Option.some.inj hcon)
  exact flush_not_holder hne2 hm2

/-- Claim C2, witness for the amended theorem. -/
theorem C2_stale_fetch_witness :
    ((({ widgets := fun _ => {}, playingFileId := some 1, pendingFetch := [0] } : Sys).widgets 0).mounted = true) ∧
    ((step (step ({ widgets := fun _ => {}, playingFileId := some 1, pendingFetch := [0] } : Sys) (.fetchOk 0)) (.playOk 0)).playingFileId = some 1) :=
  ⟨by decide,
    (C2_stale_fetch_amended
      { widgets := fun _ => {}, playingFileId := some 1, pendingFetch := [0] }
      0 1 (by decide) (by decide) (by decide)).1⟩

/-- Claim C3, counterexample.  handleSeek performs no clamping: a seek to
-5 leaves currentTime = -5, not 0, and a seek to 999 on a widget whose
declared duration is 30 leaves currentTime = 999, not 30 (the handler never
reads the duration; the only bounds are the min/max attributes of the range
input, which are presentation-layer). -/
theorem C3_seek_counterexample :
    ((handleSeek (-5) ({} : Widget)).currentTime = -5) ∧ ((-5 : ℚ) ≠ 0) ∧
    ((handleSeek 999 ({} : Widget)).currentTime = 999) ∧ ((999 : ℚ) ≠ 30) := by
  refine ⟨rfl, by norm_num, rfl, by norm_num⟩

/-- Claim C3, amended.  handleSeek assigns the requested time verbatim and
never changes the playing flag; for requests already inside [0, duration]
(the only ones the range input can deliver) the assigned value coincides
with the clamped value. -/
theorem C3_seek_amended (t : ℚ) (st : Widget) (d : ℚ)
    (h0 : 0 ≤ t) (hd : t ≤ d) :
    ((handleSeek t st).currentTime = t) ∧
    ((handleSeek t st).isPlaying = st.isPlaying) ∧
    ((handleSeek t st).currentTime = max 0 (min t d)) := by
  refine ⟨rfl, rfl, ?_⟩
  show t = max 0 (min t d)
  rw [min_eq_left hd, max_eq_right h0]

/-- Claim C3, witness for the amended theorem. -/
theorem C3_seek_witness :
    ((0 : ℚ) ≤ 3 ∧ (3 : ℚ) ≤ 30) ∧ (handleSeek 3 ({} : Widget)).currentTime = 3 :=
  ⟨⟨by norm_num, by norm_num⟩,
    (C3_seek_amended 3 {} 30 (by norm_num) (by norm_num)).1⟩

/-- Claim C4, counterexample.  Widget 0 starts a fetch, widget 1 then takes
the slot and plays; when the fetch of widget 0 fails, the catch block
(lines 89-93) clears the store unconditionally, evicting holder 1 — the
release on the error path is not conditional on holding the slot. -/
theorem C4_release_counterexample :
    ((run init [.click 1, .flush, .fetchOk 1, .flush, .playOk 1, .flush, .click 1, .flush,
        .click 0, .flush, .click 1, .playOk 1, .flush]).playingFileId = some 1) ∧
    ((run init [.click 1, .flush, .fetchOk 1, .flush, .playOk 1, .flush, .click 1, .flush,
        .click 0, .flush, .click 1, .playOk 1, .flush, .fetchErr 0]).playingFileId = none) ∧
    ((some 1 : Option Nat) ≠ none) := by
  decide

/-- Claim C4, amended.  Release is conditional on the pause and end-of-media
paths: while a mounted widget is playing, the pause click and the ended
handler clear the store exactly when it names this widget and leave it
unchanged otherwise; the error paths (fetch failure, play rejection) clear
the store unconditionally. -/
theorem C4_conditional_release_amended (s : Sys) (w : Nat)
    (hm : (s.widgets w).mounted = true) (hp : (s.widgets w).isPlaying = true) :
    ((s.playingFileId = some w →
        (handlePlayPause s w).playingFileId = none ∧
        (handleAudioEnded s w).playingFileId = none) ∧
     (s.playingFileId ≠ some w →
        (handlePlayPause s w).playingFileId = s.playingFileId ∧
        (handleAudioEnded s w).playingFileId = s.playingFileId)) := by
  constructor
  · intro h
    constructor
    · unfold handlePlayPause
      simp [hm, hp, h, setW]
    · unfold handleAudioEnded
      simp [hm, h, setW]
  · intro h
    constructor
    · unfold handlePlayPause
      simp [hm, hp, h, setW]
    · unfold handleAudioEnded
      simp [hm, h, setW]

/-- Claim C4, witness for the amended theorem. -/
theorem C4_release_witness :
    ((({ widgets := fun v => if v = 0 then { isPlaying := true } else {}, playingFileId := some 5 } : Sys).widgets 0).isPlaying = true) ∧
    ((handlePlayPause { widgets := fun v => if v = 0 then { isPlaying := true } else {}, playingFileId := some 5 } 0).playingFileId = some 5) :=
  ⟨by decide,
    ((C4_conditional_release_amended
      { widgets := fun v => if v = 0 then { isPlaying := true } else {}, playingFileId := some 5 }
      0 (by decide) (by decide)).2 (by decide)).1⟩

/-- Claim C5, counterexample.  Widget 0 is unmounted while its fetch is in
flight.  The unmount cleanup has nothing to revoke (the URL does not exist
yet); when the fetch resolves after teardown, the URL is created and never
revoked (an un-revoked resource remains), audio.play() is invoked on the
captured element of the unmounted widget, and the slot the widget held is
never released. -/
theorem C5_teardown_counterexample :
    (((run init [.click 0, .flush, .unmount 0, .fetchOk 0]).widgets 0).mounted = false) ∧
    ((run init [.click 0, .flush, .unmount 0, .fetchOk 0]).createdUrls = [0]) ∧
    ((run init [.click 0, .flush, .unmount 0, .fetchOk 0]).revokedUrls = []) ∧
    ((0, false) ∈ (run init [.click 0, .flush, .unmount 0, .fetchOk 0]).playLog) ∧
    ((run init [.click 0, .flush, .unmount 0, .fetchOk 0]).playingFileId = some 0) := by
  decide

/-- Claim C5, amended.  Teardown of a mounted widget revokes the currently
cached URL, if any, and nothing more: the store is untouched (the slot is
not released) and no epoch exists, so an in-flight fetch is not discarded
(it later creates an un-revoked URL and still calls play, as the
counterexample shows). -/
theorem C5_teardown_amended (s : Sys) (w u : Nat)
    (hm : (s.widgets w).mounted = true) (hu : (s.widgets w).objectUrl = some u) :
    (u ∈ (unmountWidget s w).revokedUrls) ∧
    ((unmountWidget s w).playingFileId = s.playingFileId) ∧
    (((unmountWidget s w).widgets w).mounted = false) := by
  unfold unmountWidget
  simp [hm, hu, setW]

/-- Claim C5, witness for the amended theorem. -/
theorem C5_teardown_witness :
    ((({ widgets := fun v => if v = 0 then { objectUrl := some 7 } else {} } : Sys).widgets 0).mounted = true) ∧
    (7 ∈ (unmountWidget { widgets := fun v => if v = 0 then { objectUrl := some 7 } else {} } 0).revokedUrls) :=
  ⟨by decide,
    (C5_teardown_amended
      { widgets := fun v => if v = 0 then { objectUrl := some 7 } else {} }
      0 7 (by decide) (by decide)).1⟩

/-- Claim C6, counterexample.  A second click on the same widget while its
first fetch is still in flight finds the cache empty and issues a second
authenticated fetch; both fetches then succeed, so the widget performs two
successful fetches within one lifetime. -/
theorem C6_double_fetch_counterexample :
    ((run init [.click 0, .click 0, .fetchOk 0, .fetchOk 0]).fetchCount 0 = 2) ∧
    ((run init [.click 0, .click 0, .fetchOk 0, .fetchOk 0]).pendingFetch = []) ∧
    (((run init [.click 0, .click 0, .fetchOk 0, .fetchOk 0]).widgets 0).mounted = true) := by
  decide

/-- Claim C6, amended.  A play click on a widget whose cache already holds a
URL issues no new fetch, so the sequential pattern play, pause, play
triggers exactly one fetch; the at-most-once guarantee fails only when a
second play is issued while a fetch is still in flight. -/
theorem C6_cache_reuse_amended (s : Sys) (w u : Nat)
    (hu : (s.widgets w).objectUrl = some u) :
    ((handlePlayPause s w).fetchCount w = s.fetchCount w) ∧
    ((run init [.click 0, .fetchOk 0, .playOk 0, .flush, .click 0, .flush, .click 0]).fetchCount 0 = 1) := by
  constructor
  · unfold handlePlayPause
    by_cases h1 : (s.widgets w).mounted = false
    · simp [h1]
    · by_cases h2 : (s.widgets w).isPlaying
      · rw [if_neg h1, if_pos h2]
        rfl
      · rw [if_neg h1, if_neg h2]
        simp [hu]
  · decide

/-- Claim C6, witness for the amended theorem. -/
theorem C6_cache_reuse_witness :
    ((({ widgets := fun v => if v = 0 then { objectUrl := some 3 } else {} } : Sys).widgets 0).objectUrl = some 3) ∧
    ((handlePlayPause { widgets := fun v => if v = 0 then { objectUrl := some 3 } else {} } 0).fetchCount 0
      = ({ widgets := fun v => if v = 0 then { objectUrl := some 3 } else {} } : Sys).fetchCount 0) :=
  ⟨by decide,
    (C6_cache_reuse_amended
      { widgets := fun v => if v = 0 then { objectUrl := some 3 } else {} }
      0 3 (by decide)).1⟩

lemma stopped_resets_general (s : Sys) (w : Nat)
    (hm : (s.widgets w).mounted = true) (hnn : 0 ≤ (s.widgets w).currentTime) :
    (((flushEffects s).widgets w).isPlaying = false →
      ((flushEffects s).widgets w).currentTime = 0) ∧
    (((flushEffects (handleAudioEnded s w)).widgets w).isPlaying = false) ∧
    (((flushEffects (handleAudioEnded s w)).widgets w).currentTime = 0) ∧
    (s.playingFileId = some w →
      (flushEffects (handleAudioEnded s w)).playingFileId = none) := by
  have hw1 : (handleAudioEnded s w).widgets w = { s.widgets w with isPlaying := false } := by
    unfold handleAudioEnded
    simp [hm, setW]
  have hm2 : ((handleAudioEnded s w).widgets w).mounted = true := by rw [hw1]; exact hm
  have hp2 : ((handleAudioEnded s w).widgets w).isPlaying = false := by rw [hw1]
  have ht2 : 0 ≤ ((handleAudioEnded s w).widgets w).currentTime := by
    rw [time_handleAudioEnded]; exact hnn
  refine ⟨?_, ?_, ?_, ?_⟩
  · intro hstop
    simp only [flushEffects, hm, if_true] at hstop ⊢
    rw [isPlaying_resetTimeEffect] at hstop
    exact resetTime_of_not_playing
      (by rw [currentTime_syncStopEffect]; exact hnn) hstop
  · simp only [flushEffects, hm2, if_true]
    rw [syncStop_of_not_playing hp2, isPlaying_resetTimeEffect]
    exact hp2
  · simp only [flushEffects, hm2, if_true]
    rw [syncStop_of_not_playing hp2]
    exact resetTime_of_not_playing ht2 hp2
  · intro hh
    rw [playingFileId_flushEffects]
    unfold handleAudioEnded
    simp [hm, hh, setW]

/-- Claim C7, confirmed.  At any effect-quiescent observation of a reachable
state, a mounted widget that is stopped shows currentTime = 0 (the
reset-time effect on lines 45-50 performs the reset); in particular after
the ended event and the following effect flush, the widget is stopped with
currentTime = 0, and the slot was released by the ended handler when this
widget held it. -/
theorem C7_stopped_resets_time (tr : List Event) (w : Nat)
    (hm : ((run init tr).widgets w).mounted = true) :
    (((flushEffects (run init tr)).widgets w).isPlaying = false →
      ((flushEffects (run init tr)).widgets w).currentTime = 0) ∧
    (((flushEffects (step (run init tr) (.ended w))).widgets w).isPlaying = false) ∧
    (((flushEffects (step (run init tr) (.ended w))).widgets w).currentTime = 0) ∧
    ((run init tr).playingFileId = some w →
      (flushEffects (step (run init tr) (.ended w))).playingFileId = none) :=
  stopped_resets_general (run init tr) w hm (time_nonneg_reachable tr w)

/-- Claim C7, witness. -/
theorem C7_stopped_resets_time_witness :
    (((run init [.click 0, .fetchOk 0, .playOk 0, .timeUpdate 0 5]).widgets 0).mounted = true) ∧
    (((flushEffects (step (run init [.click 0, .fetchOk 0, .playOk 0, .timeUpdate 0 5]) (.ended 0))).widgets 0).currentTime = 0) :=
  ⟨by decide,
    (C7_stopped_resets_time [.click 0, .fetchOk 0, .playOk 0, .timeUpdate 0 5] 0 (by decide)).2.2.1⟩

/-- Claim C8, counterexample.  Widget 1 is playing and holds the slot while
widget 0 has a fetch in flight; the fetch of widget 0 fails.  The failure
clears the store unconditionally and, at the next effect flush, widget 1 —
untouched by the failure according to the claim — is stopped by its
sync-with-global-state effect.  No Error status exists in the source: the
failing widget merely returns to the stopped state. -/
theorem C8_error_crosstalk_counterexample :
    (((run init [.click 1, .flush, .fetchOk 1, .flush, .playOk 1, .flush, .click 1, .flush,
        .click 0, .flush, .click 1, .playOk 1, .flush]).widgets 1).isPlaying = true) ∧
    ((run init [.click 1, .flush, .fetchOk 1, .flush, .playOk 1, .flush, .click 1, .flush,
        .click 0, .flush, .click 1, .playOk 1, .flush, .fetchErr 0]).playingFileId = none) ∧
    (((run init [.click 1, .flush, .fetchOk 1, .flush, .playOk 1, .flush, .click 1, .flush,
        .click 0, .flush, .click 1, .playOk 1, .flush, .fetchErr 0, .flush]).widgets 1).isPlaying = false) := by
  decide

/-- Claim C8, amended.  On a fetch failure the failing mounted widget is
stopped (isPlaying = false; the implementation has no Error status) and the
store is cleared unconditionally; consequently a sibling widget that had
meanwhile taken the slot is also stopped at the next effect flush, as the
counterexample shows. -/
theorem C8_error_handling_amended (s : Sys) (w : Nat)
    (hm : (s.widgets w).mounted = true)
    (hf : (removeFirst w s.pendingFetch).isSome = true) :
    (((fetchReject s w).widgets w).isPlaying = false) ∧
    ((fetchReject s w).playingFileId = none) := by
  unfold fetchReject
  cases hrf : removeFirst w s.pendingFetch with
  | none => rw [hrf] at hf; simp at hf
  | some rest => simp [hm, setW]

/-- Claim C8, witness for the amended theorem. -/
theorem C8_error_handling_witness :
    ((removeFirst 0 ({ widgets := fun _ => {}, pendingFetch := [0], playingFileId := some 1 } : Sys).pendingFetch).isSome = true) ∧
    ((fetchReject { widgets := fun _ => {}, pendingFetch := [0], playingFileId := some 1 } 0).playingFileId = none) :=
  ⟨by decide,
    (C8_error_handling_amended
      { widgets := fun _ => {}, pendingFetch := [0], playingFileId := some 1 }
      0 (by decide) (by decide)).2⟩

/-- Claim C9, counterexample.  After a successful fetch and play, pause, and
a second play from cache whose play() promise rejects, the cache-hit catch
(lines 60-64) revokes nothing and leaves the handle cached: objectUrl is
still set and the revoked list is empty, and a further play reuses the
cache — the fetch counter stays at 1, so no fresh fetch happens after the
failed attempt. -/
theorem C9_cache_kept_counterexample :
    (((run init [.click 0, .fetchOk 0, .playOk 0, .flush, .click 0, .flush, .click 0, .playErr 0]).widgets 0).objectUrl = some 0) ∧
    ((run init [.click 0, .fetchOk 0, .playOk 0, .flush, .click 0, .flush, .click 0, .playErr 0]).revokedUrls = []) ∧
    ((run init [.click 0, .fetchOk 0, .playOk 0, .flush, .click 0, .flush, .click 0, .playErr 0, .flush, .click 0]).fetchCount 0 = 1) := by
  decide

/-- Claim C9, amended.  A fetch failure caches nothing (the cache field is
untouched), and a play() rejection in the same attempt that fetched the
handle revokes the fresh URL and clears the cache; but a play() rejection
on a cache hit leaves the cached handle in place, so that failed attempt is
not retried with a fresh fetch. -/
theorem C9_failed_not_cached_amended (s : Sys) (w u : Nat)
    (hm : (s.widgets w).mounted = true)
    (hp : Option.map Prod.fst (popPlay w s.pendingPlay) = some (some u)) :
    (((playReject s w).widgets w).objectUrl = none) ∧
    (u ∈ (playReject s w).revokedUrls) ∧
    (((fetchReject s w).widgets w).objectUrl = (s.widgets w).objectUrl) := by
  have h3 : ((fetchReject s w).widgets w).objectUrl = (s.widgets w).objectUrl := by
    unfold fetchReject
    cases removeFirst w s.pendingFetch with
    | none => rfl
    | some rest => simp [hm, setW]
  cases hpp : popPlay w s.pendingPlay with
  | none => rw [hpp] at hp; simp at hp
  | some p =>
      obtain ⟨mode, rest⟩ := p
      rw [hpp] at hp
      simp at hp
      subst hp
      unfold playReject
      rw [hpp]
      cases hobj : (s.widgets w).objectUrl <;>
        simp [hm, hobj, setW, h3]

/-- Claim C9, witness for the amended theorem. -/
theorem C9_failed_not_cached_witness :
    (Option.map Prod.fst (popPlay 0 ({ widgets := fun _ => {}, pendingPlay := [(0, some 3)] } : Sys).pendingPlay) = some (some 3)) ∧
    (3 ∈ (playReject { widgets := fun _ => {}, pendingPlay := [(0, some 3)] } 0).revokedUrls) :=
  ⟨by decide,
    (C9_failed_not_cached_amended
      { widgets := fun _ => {}, pendingPlay := [(0, some 3)] }
      0 3 (by decide) (by decide)).2.1⟩

lemma formatTime_zero_render :
    padStart2 (toString ⌊(0 : ℚ) / 60⌋) ++ ":" ++ padStart2 (toString ⌊jsRem 0 60⌋) = "00:00" := by
  have h1 : ⌊(0 : ℚ) / 60⌋ = 0 := by norm_num
  have h0 : jsRem 0 60 = 0 := by simp [jsRem, jsTrunc]
  rw [h1, h0, Int.floor_zero]
  decide

/-- Claim C10, confirmed.  formatTime is total; it returns the zero display
for NaN and negative inputs, and for nonnegative inputs it renders
floor(s / 60) and floor(s mod 60) (with the remainder s - 60 * floor(s / 60)),
each zero-padded to at least two digits and joined by a colon, exactly as
the spec-level formatTimeSpec states; and the second player variant computes
the same function. -/
theorem C10_formatTime_correct :
    ∀ n : JSNum, formatTime n = formatTimeSpec n ∧ formatTimeSecondVariant n = formatTime n := by
  intro n
  refine ⟨?_, rfl⟩
  cases n with
  | nan =>
      simp only [formatTime, formatTimeSpec]
      exact formatTime_zero_render
  | val q =>
      by_cases hq : q < 0
      · simp only [formatTime, formatTimeSpec, if_pos hq]
        exact formatTime_zero_render
      · simp only [formatTime, formatTimeSpec, if_neg hq]
        rw [jsRem_sixty_of_nonneg (not_lt.1 hq)]

end Player
